import Mathlib

/-!
Verification of the meinberg-ltos-exporter collector.

Shallow embedding of the Go sources:
  * `client.go` — `parseCPULoad`, `parseMemory`, `Client.FetchStatus`
  * `collector.go` — `Collector.Collect` (the fetch-then-extract pipeline)

Modelling conventions:
  * JSON values decoded by `encoding/json` into `any` are modelled by the
    inductive `Json`; Go `map[string]any` becomes an association list
    (keys unique in every document we consider, as produced by the decoder).
  * Go `float64` is modelled by `GoFloat`: either an exact rational
    (ignoring IEE-754 rounding and overflow) or an infinity or NaN.
  * A failed checked type assertion `v, ok := x.(T)` is an `Option` miss;
    an unchecked assertion `x.(T)` that fails is a Go panic, modelled by
    the `panic` field of `CollectResult`.
  * Metrics written to the `chan<- prometheus.Metric` are modelled as the
    ordered list `CollectResult.emitted`; a panic keeps the prefix that
    was already emitted, as the real channel does.
-/

/-- Prometheus value type of a metric sample (`prometheus.GaugeValue` /
`prometheus.CounterValue`). -/
inductive MetricKind where
  | gauge
  | counter
deriving DecidableEq, Repr

/-- A Go `float64`: an exact rational (rounding and overflow of IEEE-754
doubles are not modelled), an infinity, or a NaN. -/
inductive GoFloat where
  | finite (q : ℚ)
  | inf (neg : Bool)
  | nan
deriving DecidableEq, Repr

/-- A decoded JSON value, as produced by `encoding/json` unmarshalling
into `any`: objects become `map[string]any` (here an association list),
numbers become `float64` (here `ℚ`). -/
inductive Json where
  | str (s : String)
  | num (q : ℚ)
  | boolean (b : Bool)
  | null
  | arr (xs : List Json)
  | obj (fields : List (String × Json))

/-- A decoded `map[string]any`, the shape `FetchStatus` returns. -/
abbrev Obj := List (String × Json)

/-- Go map lookup `m[k]` on a decoded JSON object. -/
def jLookup (o : Obj) (k : String) : Option Json :=
  match o with
  | [] => none
  | (k', v) :: rest => if k' = k then some v else jLookup rest k

/-- Checked assertion `x.(map[string]any)`. -/
def Json.asObj : Json → Option Obj
  | .obj o => some o
  | _ => none

/-- Checked assertion `x.(string)`. -/
def Json.asStr : Json → Option String
  | .str s => some s
  | _ => none

/-- Checked assertion `x.(float64)` (JSON numbers decode to `float64`). -/
def Json.asNum : Json → Option ℚ
  | .num q => some q
  | _ => none

/-- Checked assertion `x.(bool)`. -/
def Json.asBool : Json → Option Bool
  | .boolean b => some b
  | _ => none

/-- Checked assertion `x.([]any)`. -/
def Json.asArr : Json → Option (List Json)
  | .arr xs => some xs
  | _ => none

/-- `m[k].(map[string]any)` with the `, ok` form. -/
def getObj (o : Obj) (k : String) : Option Obj :=
  (jLookup o k).bind Json.asObj

/-- `m[k].(string)` with the `, ok` form. -/
def getStr (o : Obj) (k : String) : Option String :=
  (jLookup o k).bind Json.asStr

/-- `m[k].(float64)` with the `, ok` form. -/
def getNum (o : Obj) (k : String) : Option ℚ :=
  (jLookup o k).bind Json.asNum

/-- `m[k].(bool)` with the `, ok` form. -/
def getBool (o : Obj) (k : String) : Option Bool :=
  (jLookup o k).bind Json.asBool

/-! ## `strings.Fields` (used by `parseCPULoad`) -/

/-- `unicode.IsSpace`: the White_Space code points. -/
def isGoSpace (c : Char) : Bool :=
  c = ' ' ∨ c = '\t' ∨ c = '\n' ∨ c = (Char.ofNat 11) ∨ c = (Char.ofNat 12) ∨
  c = '\r' ∨ c = (Char.ofNat 0x85) ∨ c = (Char.ofNat 0xA0) ∨
  c = (Char.ofNat 0x1680) ∨ ((Char.ofNat 0x2000) ≤ c ∧ c ≤ (Char.ofNat 0x200A)) ∨
  c = (Char.ofNat 0x2028) ∨ c = (Char.ofNat 0x2029) ∨ c = (Char.ofNat 0x202F) ∨
  c = (Char.ofNat 0x205F) ∨ c = (Char.ofNat 0x3000)

/-- Worker for `goFields`: split a character list around runs of white
space, `acc` holding the current (reversed) word. -/
def goFieldsAux : List Char → List Char → List (List Char)
  | [], [] => []
  | [], acc => [acc.reverse]
  | c :: cs, acc =>
    if isGoSpace c then
      match acc with
      | [] => goFieldsAux cs []
      | _ => acc.reverse :: goFieldsAux cs []
    else
      goFieldsAux cs (c :: acc)

/-- `strings.Fields`: the white-space separated words of a string. -/
def goFields (s : String) : List String :=
  (goFieldsAux s.data []).map List.asString

/-! ## `strconv.ParseFloat` -/

/-- ASCII digit test. -/
def isDigitChar (c : Char) : Bool := '0' ≤ c ∧ c ≤ '9'

/-- Numeric value of a list of ASCII digits. -/
def digitsToNat (ds : List Char) : Nat :=
  ds.foldl (fun n c => n * 10 + (c.toNat - '0'.toNat)) 0

/-- Longest digit run at the head of a character list, and the rest. -/
def spanDigits (cs : List Char) : List Char × List Char :=
  match cs with
  | [] => ([], [])
  | c :: rest =>
    if isDigitChar c then
      let (ds, r) := spanDigits rest
      (c :: ds, r)
    else
      ([], cs)

/-- Mantissa of a decimal float literal: digit run with at most one `.`,
at least one digit in total.  Returns the combined digits' value, the
number of fractional digits, and the unconsumed rest. -/
def parseMantissa (cs : List Char) : Option (Nat × Nat × List Char) :=
  let (ip, r1) := spanDigits cs
  match r1 with
  | '.' :: r2 =>
    let (fp, r3) := spanDigits r2
    if ip = [] ∧ fp = [] then none
    else some (digitsToNat (ip ++ fp), fp.length, r3)
  | _ =>
    if ip = [] then none
    else some (digitsToNat ip, 0, r1)

/-- Exponent digits (with sign already stripped): require at least one
digit and nothing else after them. -/
def expDigits (neg : Bool) (ds : List Char) : Option Int :=
  if ds ≠ [] ∧ ds.all isDigitChar then
    some (if neg then -(digitsToNat ds : Int) else (digitsToNat ds : Int))
  else
    none

/-- Optional exponent part of a decimal float literal; the whole rest of
the string must be consumed (Go's `ParseFloat` rejects trailing text). -/
def parseExpPart : List Char → Option Int
  | [] => some 0
  | c :: cs =>
    if c = 'e' ∨ c = 'E' then
      match cs with
      | '+' :: ds => expDigits false ds
      | '-' :: ds => expDigits true ds
      | ds => expDigits false ds
    else
      none

/-- `strconv.ParseFloat(s, 64)`, as an exact rational.  Models the
decimal grammar and the `inf`/`infinity`/`nan` special values (matched
case-insensitively; a sign is allowed before the infinities but not
before `nan`, as in Go's `special`).  Not modelled: hexadecimal float
literals, underscore digit separators, and the IEEE-754 rounding and
range errors of the real conversion. -/
def parseGoFloat (s : String) : Option GoFloat :=
  match s.data with
  | [] => none
  | cs =>
    let signed := match cs with
      | '+' :: r => (false, r)
      | '-' :: r => (true, r)
      | r => (false, r)
    let neg := signed.1
    let cs1 := signed.2
    let low := cs1.map Char.toLower
    if low = ['i', 'n', 'f'] ∨ low = ['i', 'n', 'f', 'i', 'n', 'i', 't', 'y'] then
      some (.inf neg)
    else if cs.map Char.toLower = ['n', 'a', 'n'] then
      some .nan
    else
      match parseMantissa cs1 with
      | none => none
      | some (m, fracLen, r) =>
        match parseExpPart r with
        | none => none
        | some e =>
          -- the value is m * 10 ^ (e - fracLen); built with `mkRat` so that
          -- concrete runs reduce inside the kernel
          let sh : Int := e - (fracLen : Int)
          let num : Int := (if neg then -(m : Int) else (m : Int)) * (10 : Int) ^ sh.toNat
          let den : Nat := 10 ^ (-sh).toNat
          some (.finite (mkRat num den))

/-! ## `parseCPULoad` (client.go lines 39-59) -/

/-- `parseCPULoad`: split the cpuload string on white space, require at
least three fields, parse the first three as floats. -/
def parseCPULoad (cpuloadStr : String) : Except String (GoFloat × GoFloat × GoFloat) :=
  match goFields cpuloadStr with
  | p0 :: p1 :: p2 :: _ =>
    match parseGoFloat p0 with
    | none => .error "failed to parse 1-minute CPU load"
    | some load1 =>
      match parseGoFloat p1 with
      | none => .error "failed to parse 5-minute CPU load"
      | some load5 =>
        match parseGoFloat p2 with
        | none => .error "failed to parse 15-minute CPU load"
        | some load15 => .ok (load1, load5, load15)
  | _ => .error "failed to parse CPU load string"

/-! ## `parseMemory` (client.go lines 64-89)

The two regular expressions are `(\d+)\s+kB\s+total` and
`(\d+)\s+kB\s+free`.  RE2's `\s` is the class `[\t\n\f\r ]` and `\d` is
`[0-9]`.  Since the character after a maximal digit run is never a digit,
the greedy `\d+` needs no backtracking, and the leftmost match is found by
scanning start positions left to right. -/

/-- RE2 `\s`. -/
def isReSpace (c : Char) : Bool :=
  c = '\t' ∨ c = '\n' ∨ c = (Char.ofNat 12) ∨ c = '\r' ∨ c = ' '

/-- Consume one-or-more `\s` characters. -/
def takeSpaces1 (cs : List Char) : Option (List Char) :=
  match cs with
  | c :: rest =>
    if isReSpace c then
      match rest with
      | c' :: _ => if isReSpace c' then takeSpaces1 rest else some rest
      | [] => some []
    else none
  | [] => none

/-- Consume an exact literal character sequence. -/
def stripLit : List Char → List Char → Option (List Char)
  | [], cs => some cs
  | _ :: _, [] => none
  | l :: ls, c :: cs => if c = l then stripLit ls cs else none

/-- Try to match `(\d+)\s+kB\s+<word>` at the head of `cs`; the captured
group is the digit run, returned as its numeric value. -/
def matchKBAt (word : List Char) (cs : List Char) : Option Nat :=
  let (ds, r1) := spanDigits cs
  if ds = [] then none
  else
    match takeSpaces1 r1 with
    | none => none
    | some r2 =>
      match stripLit ['k', 'B'] r2 with
      | none => none
      | some r3 =>
        match takeSpaces1 r3 with
        | none => none
        | some r4 =>
          match stripLit word r4 with
          | some _ => some (digitsToNat ds)
          | none => none

/-- `FindStringSubmatch` for `(\d+)\s+kB\s+<word>`: the captured integer
of the leftmost match, if any. -/
def findKB (word : List Char) : List Char → Option Nat
  | [] => none
  | c :: cs =>
    match matchKBAt word (c :: cs) with
    | some n => some n
    | none => findKB word cs

/-- `parseMemory`: extract the integers before `kB total` and `kB free`
and convert each from kB to bytes.  (`ParseFloat` on a captured digit
run always succeeds in the rational model.) -/
def parseMemory (memoryStr : String) : Except String (ℚ × ℚ) :=
  match findKB ['t', 'o', 't', 'a', 'l'] memoryStr.data with
  | none => .error "failed to parse total memory"
  | some totalKB =>
    match findKB ['f', 'r', 'e', 'e'] memoryStr.data with
    | none => .error "failed to parse free memory"
    | some freeKB => .ok (((totalKB * 1024 : Nat) : ℚ), ((freeKB * 1024 : Nat) : ℚ))

/-- Decidable equality for `Except` results. -/
instance {ε α : Type} [DecidableEq ε] [DecidableEq α] : DecidableEq (Except ε α) := fun x y =>
  match x, y with
  | .ok a, .ok b =>
    if h : a = b then .isTrue (by rw [h]) else .isFalse (fun hh => by cases hh; exact h rfl)
  | .error a, .error b =>
    if h : a = b then .isTrue (by rw [h]) else .isFalse (fun hh => by cases hh; exact h rfl)
  | .ok _, .error _ => .isFalse (fun hh => by cases hh)
  | .error _, .ok _ => .isFalse (fun hh => by cases hh)

/-! ## `time.Parse("2006-01-02T15:04:05", s).Unix()`

The layout has chunks `2006`, `-`, `01`, `-`, `02`, `T`, `15`, `:`, `04`,
`:`, `05`.  Go's parser reads the year as exactly four digits; month,
day, minute and second with `getnum(.., fixed)` (exactly two digits); the
hour with `getnum(.., not fixed)` (one or two digits); it range-checks
month 1-12, hour 0-23, minute/second 0-59 and the day against the month
length; after the seconds it accepts an unformatted fractional-second
part `('.'|',') digit+` (whose value `Unix()` discards); any further
trailing text is an error.  Without a zone in the layout the result is
UTC, so `Unix()` is the proleptic-Gregorian epoch second count. -/

/-- Go `getnum`: one or two ASCII digits, two required when `fixed`. -/
def getnum (fixed : Bool) : List Char → Option (Nat × List Char)
  | [] => none
  | [c] =>
    if isDigitChar c ∧ ¬fixed then some (digitsToNat [c], []) else none
  | c1 :: c2 :: rest =>
    if isDigitChar c1 then
      if isDigitChar c2 then some (digitsToNat [c1, c2], rest)
      else if fixed then none
      else some (digitsToNat [c1], c2 :: rest)
    else none

/-- A literal layout character. -/
def expectChar (c : Char) : List Char → Option (List Char)
  | c' :: rest => if c' = c then some rest else none
  | [] => none

/-- Gregorian leap year. -/
def isLeapYear (y : Nat) : Bool := y % 4 = 0 ∧ (y % 100 ≠ 0 ∨ y % 400 = 0)

/-- Days in a month (Go `daysIn`). -/
def daysInMonth (m y : Nat) : Nat :=
  if m = 2 then (if isLeapYear y then 29 else 28)
  else if m = 4 ∨ m = 6 ∨ m = 9 ∨ m = 11 then 30
  else 31

/-- Days from 1970-01-01 to year `y` (0-9999), month `m`, day `d` in the
proleptic Gregorian calendar (civil-from-days algorithm, shifted by 400
years so that all intermediate values are natural numbers). -/
def daysFromEpoch (y m d : Nat) : Int :=
  let yy := y + 400
  let y' := if m ≤ 2 then yy - 1 else yy
  let era := y' / 400
  let yoe := y' - era * 400
  let mp := if 2 < m then m - 3 else m + 9
  let doy := (153 * mp + 2) / 5 + d - 1
  let doe := yoe * 365 + yoe / 4 - yoe / 100 + doy
  (era : Int) * 146097 + (doe : Int) - 719468 - 146097

/-- Consume an optional unformatted fractional second `('.'|',') digit+`
(Go's special case after the seconds chunk; `Unix()` ignores its value). -/
def dropFracSecond (cs : List Char) : List Char :=
  match cs with
  | c :: c2 :: rest =>
    if (c = '.' ∨ c = ',') ∧ isDigitChar c2 then (spanDigits (c2 :: rest)).2
    else cs
  | _ => cs

/-- `time.Parse("2006-01-02T15:04:05", s).Unix()`: epoch seconds of the
parsed UTC instant, or `none` when the parse fails. -/
def parseEventTime (s : String) : Option Int :=
  match s.data with
  | y1 :: y2 :: y3 :: y4 :: rest =>
    if isDigitChar y1 ∧ isDigitChar y2 ∧ isDigitChar y3 ∧ isDigitChar y4 then
      let year := digitsToNat [y1, y2, y3, y4]
      match expectChar '-' rest with
      | none => none
      | some r1 =>
        match getnum true r1 with
        | none => none
        | some (month, r2) =>
          if month = 0 ∨ 12 < month then none
          else
            match expectChar '-' r2 with
            | none => none
            | some r3 =>
              match getnum true r3 with
              | none => none
              | some (day, r4) =>
                match expectChar 'T' r4 with
                | none => none
                | some r5 =>
                  match getnum false r5 with
                  | none => none
                  | some (hour, r6) =>
                    if 24 ≤ hour then none
                    else
                      match expectChar ':' r6 with
                      | none => none
                      | some r7 =>
                        match getnum true r7 with
                        | none => none
                        | some (minute, r8) =>
                          if 60 ≤ minute then none
                          else
                            match expectChar ':' r8 with
                            | none => none
                            | some r9 =>
                              match getnum true r9 with
                              | none => none
                              | some (sec, r10) =>
                                if 60 ≤ sec then none
                                else if dropFracSecond r10 ≠ [] then none
                                else if day = 0 ∨ daysInMonth month year < day then none
                                else
                                  some (daysFromEpoch year month day * 86400 +
                                    (hour : Int) * 3600 + (minute : Int) * 60 + (sec : Int))
    else none
  | _ => none

/-! ## Observations and the collect pipeline (collector.go) -/

/-- One metric sample sent over the collect channel:
`prometheus.MustNewConstMetric(desc, valueType, value, labelValues...)`,
recorded as the metric name, the value type, the label names paired with
the label values (in the descriptor's order), and the value. -/
structure Observation where
  name : String
  kind : MetricKind
  labels : List (String × String)
  value : GoFloat
deriving DecidableEq, Repr

/-- A Go runtime panic escaping `Collect` (a failed unchecked type
assertion `x.(T)`). -/
inductive GoPanic where
  | typeAssertion
deriving DecidableEq, Repr

/-- What one call of `Collect` does to the metric channel: the samples
written, in order, and whether the call ended in a panic (a panic keeps
the already-written prefix). -/
structure CollectResult where
  emitted : List Observation
  panicked : Option GoPanic
deriving DecidableEq, Repr

/-- Sequencing of collect steps: the second step runs only when the
first did not panic. -/
def CollectResult.seq (r1 r2 : CollectResult) : CollectResult :=
  match r1.panicked with
  | some _ => r1
  | none => ⟨r1.emitted ++ r2.emitted, r2.panicked⟩

/-- Plain emission of a list of samples. -/
def emitR (l : List Observation) : CollectResult := ⟨l, none⟩

/-- A failed unchecked type assertion. -/
def panicR : CollectResult := ⟨[], some .typeAssertion⟩

/-- Metric names from `NewCollector` (prefix `mbg_ltos_`). -/
def upName : String := "mbg_ltos_up"

def buildInfoName : String := "mbg_ltos_build_info"

def systemInfoName : String := "mbg_ltos_system_info"

def uptimeName : String := "mbg_ltos_system_uptime_seconds"

def cpuInfoName : String := "mbg_ltos_system_cpu_info"

def cpuLoadAvgName : String := "mbg_ltos_system_cpu_load_avg"

def memoryBytesName : String := "mbg_ltos_system_memory_bytes"

def memoryFreeBytesName : String := "mbg_ltos_system_memory_free_bytes"

def eventMetricName : String := "mbg_ltos_event"

def storageCapacityName : String := "mbg_ltos_storage_capacity_bytes"

def storageUsedName : String := "mbg_ltos_storage_used_bytes"

def receiverInfoName : String := "mbg_ltos_receiver_info"

def satInViewName : String := "mbg_ltos_receiver_gnss_satellites_in_view"

def satGoodName : String := "mbg_ltos_receiver_gnss_satellites_good"

def latitudeName : String := "mbg_ltos_receiver_gnss_latitude_degrees"

def longitudeName : String := "mbg_ltos_receiver_gnss_longitude_degrees"

def altitudeName : String := "mbg_ltos_receiver_gnss_altitude_meters"

def antConnectedName : String := "mbg_ltos_receiver_gnss_antenna_connected"

def antShortCircuitName : String := "mbg_ltos_receiver_gnss_antenna_short_circuit"

def syncedName : String := "mbg_ltos_receiver_synced"

def trackingName : String := "mbg_ltos_receiver_tracking"

def coldBootName : String := "mbg_ltos_receiver_cold_boot"

def warmBootName : String := "mbg_ltos_receiver_warm_boot"

/-- An emitted sample whose first label is always `host` (every
descriptor in `NewCollector` lists `host` first). -/
def mkObs (name : String) (kind : MetricKind) (host : String)
    (rest : List (String × String)) (v : GoFloat) : Observation :=
  ⟨name, kind, ("host", host) :: rest, v⟩

/-- Go `0.0 / 1.0` encoding of a bool metric value. -/
def boolVal (b : Bool) : GoFloat := .finite (if b then 1 else 0)

/-- The identity fields required by `Collect` before anything but `up`
may be emitted (collector.go lines 314-373). -/
structure Identity where
  apiVersion : String
  firmwareVersion : String
  model : String
  serial : String
  host : String
deriving DecidableEq, Repr

/-- Lines 314-373: resolve the required identity fields, in source
order, together with the `data` object needed by the rest of the body.
`none` is the path on which `Collect` logs and does a bare `return`. -/
def resolveIdentity (statusData : Obj) : Option (Identity × Obj) :=
  match getObj statusData "system-information" with
  | none => none
  | some systemInfo =>
    match getObj statusData "data" with
    | none => none
    | some data =>
      match getObj data "rest-api" with
      | none => none
      | some restAPI =>
        match getStr restAPI "api-version" with
        | none => none
        | some apiVersion =>
          match getStr systemInfo "version" with
          | none => none
          | some firmwareVersion =>
            match getStr systemInfo "model" with
            | none => none
            | some model =>
              match getStr systemInfo "serial-number" with
              | none => none
              | some serial =>
                match getStr systemInfo "hostname" with
                | none => none
                | some host => some (⟨apiVersion, firmwareVersion, model, serial, host⟩, data)

/-- Lines 394-401: the optional uptime gauge (its descriptor is a
Counter). -/
def uptimeSection (host : String) (system : Obj) : List Observation :=
  match getNum system "uptime" with
  | some uptime => [mkObs uptimeName .counter host [] (.finite uptime)]
  | none => []

/-- Lines 404-431: the optional CPU-load gauges. -/
def cpuloadSection (host : String) (system : Obj) : List Observation :=
  match getStr system "cpuload" with
  | none => []
  | some cpuloadStr =>
    match parseCPULoad cpuloadStr with
    | .error _ => []
    | .ok (load1, load5, load15) =>
      [mkObs cpuLoadAvgName .gauge host [("period", "1")] load1,
       mkObs cpuLoadAvgName .gauge host [("period", "5")] load5,
       mkObs cpuLoadAvgName .gauge host [("period", "15")] load15]

/-- Lines 434-452: the optional memory gauges. -/
def memorySection (host : String) (system : Obj) : List Observation :=
  match getStr system "memory" with
  | none => []
  | some memoryStr =>
    match parseMemory memoryStr with
    | .error _ => []
    | .ok (totalBytes, freeBytes) =>
      [mkObs memoryBytesName .gauge host [] (.finite totalBytes),
       mkObs memoryFreeBytesName .gauge host [] (.finite freeBytes)]

/-- Lines 457-476: one notification event.  The entry and its three
fields are read with unchecked assertions (panic on failure); the
`"never"` sentinel and unparseable timestamps yield no sample. -/
def eventStep (host : String) (evt : Json) : CollectResult :=
  match evt.asObj with
  | none => panicR
  | some event =>
    match getStr event "type" with
    | none => panicR
    | some eventType =>
      match getStr event "object-id" with
      | none => panicR
      | some eventName =>
        match getStr event "last-triggered" with
        | none => panicR
        | some lastTriggered =>
          if lastTriggered ≠ "never" then
            match parseEventTime lastTriggered with
            | none => emitR []
            | some t =>
              emitR [mkObs eventMetricName .counter host
                [("type", eventType), ("event", eventName)] (.finite (t : ℚ))]
          else emitR []

/-- Lines 455-478: the notification events loop. -/
def eventsSection (host : String) (data : Obj) : CollectResult :=
  match getObj data "notification" with
  | none => emitR []
  | some notifications =>
    match (jLookup notifications "events").bind Json.asArr with
    | none => emitR []
    | some events => events.foldl (fun r evt => r.seq (eventStep host evt)) (emitR [])

/-- Lines 482-508: one storage entry (all accesses checked; a malformed
entry is skipped). -/
def storageStep (host : String) (raw : Json) : List Observation :=
  match raw.asObj with
  | none => []
  | some storageEntry =>
    match getStr storageEntry "mountpoint" with
    | none => []
    | some mountpoint =>
      (match getNum storageEntry "size" with
       | some volumeSize =>
         [mkObs storageCapacityName .gauge host [("mount", mountpoint)] (.finite volumeSize)]
       | none => []) ++
      (match getNum storageEntry "used" with
       | some usedBytes =>
         [mkObs storageUsedName .gauge host [("mount", mountpoint)] (.finite usedBytes)]
       | none => [])

/-- Lines 481-509: the storage loop. -/
def storageSection (host : String) (system : Obj) : List Observation :=
  match (jLookup system "storage").bind Json.asArr with
  | none => []
  | some storageData => storageData.flatMap (storageStep host)

/-- Lines 521-532: a `"cpu"` slot.  `module` is checked; `info` and its
fields are read with unchecked assertions (the `if ... := ...; ok` form
re-tests the enclosing `ok`, which is already true). -/
def cpuSlotPart (host : String) (slot : Obj) : CollectResult :=
  match getObj slot "module" with
  | none => emitR []
  | some cpuModuleData =>
    match getObj cpuModuleData "info" with
    | none => panicR
    | some cpuInfoData =>
      match getStr cpuInfoData "model" with
      | none => panicR
      | some cpuModel =>
        match getStr cpuInfoData "serial-number" with
        | none => panicR
        | some cpuSerial =>
          emitR [mkObs cpuInfoName .gauge host
            [("model", cpuModel), ("serial_number", cpuSerial)] (.finite 1)]

/-- Lines 535-549: the `"clk"` module info sample; `sync-status` absent
or mistyped leaves the oscillator label at `"unknown"`. -/
def clkInfoPart (host slotID : String) (moduleData : Obj) : CollectResult :=
  match getObj moduleData "info" with
  | none => emitR []
  | some moduleInfoData =>
    match getStr moduleInfoData "model" with
    | none => panicR
    | some model =>
      match getStr moduleInfoData "serial-number" with
      | none => panicR
      | some serial =>
        match getStr moduleInfoData "software-revision" with
        | none => panicR
        | some softwareRevision =>
          match getObj moduleData "sync-status" with
          | none =>
            emitR [mkObs receiverInfoName .gauge host
              [("slot_id", slotID), ("model", model), ("serial_number", serial),
               ("software_revision", softwareRevision), ("oscillator_type", "unknown")]
              (.finite 1)]
          | some syncStatus =>
            match getStr syncStatus "osc-type" with
            | none => panicR
            | some oscillatorType =>
              emitR [mkObs receiverInfoName .gauge host
                [("slot_id", slotID), ("model", model), ("serial_number", serial),
                 ("software_revision", softwareRevision), ("oscillator_type", oscillatorType)]
                (.finite 1)]

/-- Lines 551-588: the GNSS satellites block (five unchecked `float64`
assertions, then five gauges). -/
def satellitesPart (host slotID : String) (moduleData : Obj) : CollectResult :=
  match getObj moduleData "satellites" with
  | none => emitR []
  | some satellitesData =>
    match getNum satellitesData "satellites-in-view" with
    | none => panicR
    | some satInView =>
      match getNum satellitesData "good-satellites" with
      | none => panicR
      | some satGood =>
        match getNum satellitesData "latitude" with
        | none => panicR
        | some lat =>
          match getNum satellitesData "longitude" with
          | none => panicR
          | some lon =>
            match getNum satellitesData "altitude" with
            | none => panicR
            | some alt =>
              emitR [mkObs satInViewName .gauge host [("slot_id", slotID)] (.finite satInView),
                mkObs satGoodName .gauge host [("slot_id", slotID)] (.finite satGood),
                mkObs latitudeName .gauge host [("slot_id", slotID)] (.finite lat),
                mkObs longitudeName .gauge host [("slot_id", slotID)] (.finite lon),
                mkObs altitudeName .gauge host [("slot_id", slotID)] (.finite alt)]

/-- Lines 591-613: the GRC antenna block (each bool read with an
unchecked assertion just before its gauge is sent). -/
def antennaPart (host slotID : String) (grcData : Obj) : CollectResult :=
  match getObj grcData "antenna" with
  | none => emitR []
  | some grcAntData =>
    match getBool grcAntData "connected" with
    | none => panicR
    | some connected =>
      (emitR [mkObs antConnectedName .gauge host [("slot_id", slotID)] (boolVal connected)]).seq
        (match getBool grcAntData "short-circuit" with
         | none => panicR
         | some shortCircuit =>
           emitR [mkObs antShortCircuitName .gauge host [("slot_id", slotID)]
             (boolVal shortCircuit)])

/-- Lines 614-658: the GRC receiver block. -/
def receiverPart (host slotID : String) (grcData : Obj) : CollectResult :=
  match getObj grcData "receiver" with
  | none => emitR []
  | some grcRcvData =>
    match getBool grcRcvData "synchronized" with
    | none => panicR
    | some synchronized =>
      (emitR [mkObs syncedName .gauge host [("slot_id", slotID)] (boolVal synchronized)]).seq
        (match getBool grcRcvData "tracking" with
         | none => panicR
         | some tracking =>
           (emitR [mkObs trackingName .gauge host [("slot_id", slotID)] (boolVal tracking)]).seq
             (match getBool grcRcvData "warm-boot" with
              | none => panicR
              | some warmBoot =>
                (emitR [mkObs warmBootName .gauge host [("slot_id", slotID)]
                    (boolVal warmBoot)]).seq
                  (match getBool grcRcvData "cold-boot" with
                   | none => panicR
                   | some coldBoot =>
                     emitR [mkObs coldBootName .gauge host [("slot_id", slotID)]
                       (boolVal coldBoot)])))

/-- Lines 590-659: the GRC block of a `"clk"` slot. -/
def grcPart (host slotID : String) (moduleData : Obj) : CollectResult :=
  match getObj moduleData "grc" with
  | none => emitR []
  | some grcData => (antennaPart host slotID grcData).seq (receiverPart host slotID grcData)

/-- Lines 515-662: one chassis slot.  The slot map, `slot-type` and
`slot-id` are read with unchecked assertions; slot types other than
`"cpu"` and `"clk"` produce nothing. -/
def slotStep (host : String) (slotRaw : Json) : CollectResult :=
  match slotRaw.asObj with
  | none => panicR
  | some slot =>
    match getStr slot "slot-type" with
    | none => panicR
    | some slotType =>
      match getStr slot "slot-id" with
      | none => panicR
      | some slotID =>
        if slotType = "cpu" then
          cpuSlotPart host slot
        else if slotType = "clk" then
          match getObj slot "module" with
          | none => emitR []
          | some moduleData =>
            ((clkInfoPart host slotID moduleData).seq
              (satellitesPart host slotID moduleData)).seq
              (grcPart host slotID moduleData)
        else emitR []

/-- Lines 513-664: the chassis slots loop. -/
def chassisSection (host : String) (data : Obj) : CollectResult :=
  match getObj data "chassis0" with
  | none => emitR []
  | some chassisData =>
    match (jLookup chassisData "slots").bind Json.asArr with
    | none => emitR []
    | some slots => slots.foldl (fun r slotRaw => r.seq (slotStep host slotRaw)) (emitR [])

/-- Lines 390-664: the extraction body after identity resolution.  Line
391, `system := data["system"].(map[string]any)`, is an unchecked
assertion: it panics when the key is missing or mistyped. -/
def extractBody (host : String) (data : Obj) : CollectResult :=
  match getObj data "system" with
  | none => panicR
  | some system =>
    (emitR (uptimeSection host system ++ cpuloadSection host system ++
        memorySection host system)).seq
      ((eventsSection host data).seq
        ((emitR (storageSection host system)).seq (chassisSection host data)))

/-- The fetch outcome handed to `Collect` by `c.client.FetchStatus()`. -/
inductive FetchError where
  | transport
  | badStatus (code : Nat)
  | readFailed
  | decodeFailed
deriving DecidableEq, Repr

/-- `Collector.Collect` (lines 305-674) as a function of the fetch
outcome and the configured target URL: the samples written to the
channel and whether the call panicked.  On a fetch error only the `up`
gauge (value 0, host `"unknown"`) is written; on an identity failure the
bare `return` writes nothing at all; otherwise `build_info`,
`system_info`, the optional groups, and finally the `up` gauge with
value 1. -/
def collect (fetched : Except FetchError Obj) (target : String) : CollectResult :=
  match fetched with
  | .error _ => emitR [mkObs upName .gauge "unknown" [("target", target)] (.finite 0)]
  | .ok statusData =>
    match resolveIdentity statusData with
    | none => emitR []
    | some (idn, data) =>
      ((emitR [mkObs buildInfoName .gauge idn.host
          [("api_version", idn.apiVersion), ("firmware_version", idn.firmwareVersion)]
          (.finite 1),
        mkObs systemInfoName .gauge idn.host
          [("model", idn.model), ("serial_number", idn.serial)] (.finite 1)]).seq
        (extractBody idn.host data)).seq
        (emitR [mkObs upName .gauge idn.host [("target", target)] (.finite 1)])

/-! ## `Client.FetchStatus` (client.go lines 110-142) -/

/-- The body of an HTTP response: either `io.ReadAll` fails, or it
yields bytes whose JSON parse is recorded (`none` = not valid JSON). -/
inductive BodyResult where
  | readErr
  | content (parsed : Option Json)

/-- The outcome of `httpClient.Do`: transport failure or a response with
a status code and a body. -/
inductive HTTPOutcome where
  | transportErr
  | response (status : Nat) (body : BodyResult)

/-- `Client.FetchStatus`: error on transport failure; error on any
status other than `http.StatusOK` (200); then `json.Unmarshal` into a
`map[string]any`, which succeeds exactly for a JSON object (or JSON
`null`, which leaves the map nil — modelled as the empty object). -/
def fetchStatus (o : HTTPOutcome) : Except FetchError Obj :=
  match o with
  | .transportErr => .error .transport
  | .response status body =>
    if status ≠ 200 then .error (.badStatus status)
    else
      match body with
      | .readErr => .error .readFailed
      | .content parsed =>
        match parsed with
        | some (.obj fields) => .ok fields
        | some .null => .ok []
        | _ => .error .decodeFailed

/-! ## Concrete documents used as failing inputs and witnesses -/

/-- A fetched document whose identity block lacks `hostname` (all other
required identity fields present and well-typed). -/
def identityMissingDoc : Obj :=
  [("system-information", .obj [("version", .str "fw_7.10.008"), ("model", .str "M600"),
      ("serial-number", .str "S123")]),
   ("data", .obj [("rest-api", .obj [("api-version", .str "V20")])])]

/-- A fetched document with the complete identity block but no
`data.system` key. -/
def missingSystemDoc : Obj :=
  [("system-information", .obj [("version", .str "fw_7.10.008"), ("model", .str "M600"),
      ("serial-number", .str "S123"), ("hostname", .str "tick")]),
   ("data", .obj [("rest-api", .obj [("api-version", .str "V20")])])]

/-- A complete, well-formed fetched document. -/
def sampleDoc : Obj :=
  [("system-information", .obj [("version", .str "fw"), ("model", .str "M600"),
      ("serial-number", .str "S"), ("hostname", .str "h1")]),
   ("data", .obj [("rest-api", .obj [("api-version", .str "V20")]),
     ("system", .obj
       [("uptime", .num 130988), ("cpuload", .str "0.48 0.66 0.57 2/99 25157"),
        ("memory", .str "228428 kB total memory, 161732 kB free (70 %)"),
        ("storage", .arr [.obj [("mountpoint", .str "/"), ("size", .num 1000),
           ("used", .num 400)]])]),
     ("notification", .obj [("events", .arr
        [.obj [("type", .str "alarm"), ("object-id", .str "e1"),
               ("last-triggered", .str "never")],
         .obj [("type", .str "alarm"), ("object-id", .str "e2"),
               ("last-triggered", .str "2024-03-01T00:00:00")]])]),
     ("chassis0", .obj [("slots", .arr
        [.obj [("slot-type", .str "clk"), ("slot-id", .str "1"),
           ("module", .obj [("info", .obj [("model", .str "GPS180"),
              ("serial-number", .str "G1"),
              ("software-revision", .str "2.0")])])]])])])]

/-! ## Claim theorems -/

/-- C1: the claim says a document missing one required identity field
yields exactly one Observation (the `up` liveness gauge), `up` being
emitted in every outcome.  The code instead does a bare `return` from
`Collect` on the identity-failure path, skipping the final `up` send:
on such a document it emits nothing at all. -/
theorem collect_identity_failure_emits_nothing :
    collect (.ok identityMissingDoc) "http://device" = ⟨[], none⟩ ∧
    (collect (.ok identityMissingDoc) "http://device").emitted.length ≠ 1 := by
  decide

/-- C2: the claim says a missing or mistyped optional group never
prevents the other groups and `Collect` never panics.  The code's
unchecked assertion `data["system"].(map[string]any)` (line 391) panics
on a document with a complete identity block but no `data.system`,
aborting every optional group and escaping the scrape. -/
theorem collect_missing_system_panics :
    collect (.ok missingSystemDoc) "http://device" =
      ⟨[mkObs buildInfoName .gauge "tick"
          [("api_version", "V20"), ("firmware_version", "fw_7.10.008")] (.finite 1),
        mkObs systemInfoName .gauge "tick"
          [("model", "M600"), ("serial_number", "S123")] (.finite 1)],
       some .typeAssertion⟩ := by
  decide

/-- C6: on any fetch error, `Collect` emits exactly one Observation:
the `up` gauge with value 0, host label `"unknown"`, and the configured
target URL label. -/
theorem collect_fetch_error_up_only (e : FetchError) (target : String) :
    collect (.error e) target =
      ⟨[⟨upName, .gauge, [("host", "unknown"), ("target", target)], .finite 0⟩], none⟩ := rfl

/-- C9: extraction is deterministic — two runs of `Collect` on the same
fetched document and target produce identical Observation sequences. -/
theorem collect_deterministic (fetched : Except FetchError Obj) (target : String)
    (r1 r2 : CollectResult) (h1 : r1 = collect fetched target)
    (h2 : r2 = collect fetched target) : r1 = r2 := by
  rw [h1, h2]

/-- Witness for C9 at a concrete document. -/
theorem collect_deterministic_witness :
    collect (.ok sampleDoc) "tgt" = collect (.ok sampleDoc) "tgt" :=
  collect_deterministic (.ok sampleDoc) "tgt" _ _ rfl rfl

/-- C7 counterexample: the claim says `FetchStatus` errors exactly on
non-2xx status, transport failure, or invalid JSON — so a 2xx response
with a valid JSON object body should succeed.  The code tests
`resp.StatusCode != http.StatusOK`, i.e. it rejects every status other
than 200: a 201 response with a valid JSON object body errors. -/
theorem fetchStatus_non2xx_counterexample :
    (fetchStatus (.response 201 (.content (some (.obj []))))).isOk = false ∧
    200 ≤ 201 ∧ 201 ≤ 299 :=
  ⟨rfl, by norm_num, by norm_num⟩

/-- C7 amended: `FetchStatus` errors exactly when the transport or body
read fails, the status is not 200, or the body is not a JSON object
(JSON `null` also succeeds, leaving the map nil); a 200 response with a
valid JSON object body is returned without error. -/
theorem fetchStatus_spec :
    fetchStatus .transportErr = .error .transport ∧
    (∀ st body, st ≠ 200 → (fetchStatus (.response st body)).isOk = false) ∧
    (fetchStatus (.response 200 .readErr)).isOk = false ∧
    (∀ fields, fetchStatus (.response 200 (.content (some (.obj fields)))) = .ok fields) ∧
    fetchStatus (.response 200 (.content (some .null))) = .ok [] ∧
    (∀ j, (∀ fields, j ≠ .obj fields) → j ≠ .null →
      (fetchStatus (.response 200 (.content (some j)))).isOk = false) ∧
    (fetchStatus (.response 200 (.content none))).isOk = false := by
  refine ⟨rfl, ?_, rfl, fun fields => rfl, rfl, ?_, rfl⟩
  · intro st body hst
    simp only [fetchStatus, if_pos hst]
    rfl
  · intro j hobj hnull
    cases j with
    | obj fields => exact absurd rfl (hobj fields)
    | null => exact absurd rfl hnull
    | str s => rfl
    | num q => rfl
    | boolean b => rfl
    | arr xs => rfl

/-- Witness for C7 at concrete inputs. -/
theorem fetchStatus_spec_witness :
    (fetchStatus (.response 500 .readErr)).isOk = false ∧
    (fetchStatus (.response 200 (.content (some (.arr []))))).isOk = false :=
  ⟨fetchStatus_spec.2.1 500 .readErr (by norm_num),
   fetchStatus_spec.2.2.2.2.2.1 (.arr []) (fun fields h => by cases h) (fun h => by cases h)⟩

/-- C4 counterexample: the claim's worked example says
`parseMemory("228428 kB total memory, 161732 kB free (70 %)")` returns
`(233902592.0, 165613568.0)`, but `228428 × 1024 = 233910272`, which is
what the code returns for the total. -/
theorem parseMemory_claim_counterexample :
    parseMemory "228428 kB total memory, 161732 kB free (70 %)" =
      .ok (233910272, 165613568) ∧
    (233910272 : ℚ) ≠ 233902592 := by
  constructor
  · decide
  · norm_num

/-- C4 amended: `parseMemory` extracts the first integer preceding
`kB total` and the first integer preceding `kB free` independently,
fails whenever either pattern is absent (both-or-neither, never a
partial result), and on success returns each integer multiplied by
1024; the worked example returns `(233910272.0, 165613568.0)` (not
`233902592.0`, the claim's arithmetic slip), and `"garbage"` is an
error. -/
theorem parseMemory_spec :
    (∀ s, (parseMemory s).isOk = true ↔
      ((findKB ['t', 'o', 't', 'a', 'l'] s.data).isSome = true ∧
       (findKB ['f', 'r', 'e', 'e'] s.data).isSome = true)) ∧
    (∀ s t f, parseMemory s = .ok (t, f) →
      ∃ tk fk, findKB ['t', 'o', 't', 'a', 'l'] s.data = some tk ∧
        findKB ['f', 'r', 'e', 'e'] s.data = some fk ∧
        t = (tk : ℚ) * 1024 ∧ f = (fk : ℚ) * 1024) ∧
    parseMemory "228428 kB total memory, 161732 kB free (70 %)" =
      .ok (233910272, 165613568) ∧
    (parseMemory "garbage").isOk = false := by
  refine ⟨?_, ?_, by decide, by decide⟩
  · intro s
    unfold parseMemory
    cases h1 : findKB ['t', 'o', 't', 'a', 'l'] s.data <;>
      cases h2 : findKB ['f', 'r', 'e', 'e'] s.data <;>
        simp [Except.isOk, Except.toBool]
  · intro s t f h
    unfold parseMemory at h
    cases h1 : findKB ['t', 'o', 't', 'a', 'l'] s.data with
    | none => rw [h1] at h; cases h
    | some tk =>
      rw [h1] at h
      cases h2 : findKB ['f', 'r', 'e', 'e'] s.data with
      | none => rw [h2] at h; cases h
      | some fk =>
        rw [h2] at h
        cases h
        exact ⟨tk, fk, rfl, rfl, by push_cast; ring, by push_cast; ring⟩

/-- Witness for C4 at the worked example. -/
theorem parseMemory_spec_witness :
    ∃ tk fk,
      findKB ['t', 'o', 't', 'a', 'l'] "228428 kB total memory, 161732 kB free (70 %)".data =
        some tk ∧
      findKB ['f', 'r', 'e', 'e'] "228428 kB total memory, 161732 kB free (70 %)".data =
        some fk ∧
      (233910272 : ℚ) = (tk : ℚ) * 1024 ∧ (165613568 : ℚ) = (fk : ℚ) * 1024 :=
  parseMemory_spec.2.1 "228428 kB total memory, 161732 kB free (70 %)" 233910272 165613568
    (by decide)

/-- C3: `parseCPULoad` splits on white space, succeeds exactly when
there are at least 3 tokens all of whose first three parse as floats,
returns those three parses (ignoring trailing tokens), and maps the
worked example to `(0.48, 0.66, 0.57)`. -/
theorem parseCPULoad_spec :
    (∀ s, (parseCPULoad s).isOk = true ↔
      (3 ≤ (goFields s).length ∧ ∀ t ∈ (goFields s).take 3, (parseGoFloat t).isSome = true)) ∧
    (∀ s l1 l5 l15, parseCPULoad s = .ok (l1, l5, l15) →
      ((goFields s).take 3).map parseGoFloat = [some l1, some l5, some l15]) ∧
    parseCPULoad "0.48 0.66 0.57 2/99 25157" =
      .ok (.finite 0.48, .finite 0.66, .finite 0.57) := by
  refine ⟨?_, ?_, ?_⟩
  · intro s
    unfold parseCPULoad
    rcases h : goFields s with _ | ⟨a, _ | ⟨b, _ | ⟨c, rest⟩⟩⟩
    · simp [Except.isOk, Except.toBool]
    · simp [Except.isOk, Except.toBool]
    · simp [Except.isOk, Except.toBool]
    · cases ha : parseGoFloat a <;> cases hb : parseGoFloat b <;> cases hc : parseGoFloat c <;>
        simp [ha, hb, hc, Except.isOk, Except.toBool]
  · intro s l1 l5 l15 h
    unfold parseCPULoad at h
    split at h
    · rename_i p0 p1 p2 tail heq
      rw [heq]
      cases ha : parseGoFloat p0 <;> rw [ha] at h
      · cases h
      · cases hb : parseGoFloat p1 <;> rw [hb] at h
        · cases h
        · cases hc : parseGoFloat p2 <;> rw [hc] at h
          · cases h
          · cases h
            simp [ha, hb, hc]
    · cases h
  · have base : parseCPULoad "0.48 0.66 0.57 2/99 25157" =
        .ok (.finite (mkRat 12 25), .finite (mkRat 33 50), .finite (mkRat 57 100)) := by decide
    rw [base]
    norm_num [Rat.mkRat_eq_div]

/-- Witness for C3 at the worked example. -/
theorem parseCPULoad_spec_witness :
    ((goFields "0.48 0.66 0.57 2/99 25157").take 3).map parseGoFloat =
      [some (.finite 0.48), some (.finite 0.66), some (.finite 0.57)] :=
  parseCPULoad_spec.2.1 "0.48 0.66 0.57 2/99 25157" _ _ _ parseCPULoad_spec.2.2

/-- C5: for an event entry whose `type`, `object-id` and
`last-triggered` fields are present as strings: the `"never"` sentinel
emits nothing; a timestamp parseable against `YYYY-MM-DDTHH:MM:SS`
emits exactly one Counter sample whose value is its Unix epoch seconds;
anything else emits nothing. -/
theorem eventStep_spec (host : String) (event : Obj) (ty nm lt : String)
    (hty : getStr event "type" = some ty)
    (hnm : getStr event "object-id" = some nm)
    (hlt : getStr event "last-triggered" = some lt) :
    (lt = "never" → eventStep host (.obj event) = emitR []) ∧
    (∀ t, parseEventTime lt = some t →
      eventStep host (.obj event) =
        emitR [mkObs eventMetricName .counter host [("type", ty), ("event", nm)]
          (.finite (t : ℚ))]) ∧
    (lt ≠ "never" → parseEventTime lt = none → eventStep host (.obj event) = emitR []) := by
  have hstep : eventStep host (.obj event) =
      if lt ≠ "never" then
        (match parseEventTime lt with
         | none => emitR []
         | some t => emitR [mkObs eventMetricName .counter host [("type", ty), ("event", nm)]
             (.finite (t : ℚ))])
      else emitR [] := by
    unfold eventStep
    simp only [Json.asObj, hty, hnm, hlt]
  refine ⟨?_, ?_, ?_⟩
  · intro h
    rw [hstep]
    simp [h]
  · intro t ht
    have hne : lt ≠ "never" := by
      intro he
      subst he
      rw [show parseEventTime "never" = none from by decide] at ht
      cases ht
    rw [hstep, if_pos hne, ht]
  · intro hne hnone
    rw [hstep, if_pos hne, hnone]

/-- Witness for C5 at a concrete event entry. -/
theorem eventStep_spec_witness :
    eventStep "h1" (.obj [("type", .str "alarm"), ("object-id", .str "e2"),
        ("last-triggered", .str "2024-03-01T00:00:00")]) =
      emitR [mkObs eventMetricName .counter "h1" [("type", "alarm"), ("event", "e2")]
        (.finite ((1709251200 : Int) : ℚ))] :=
  (eventStep_spec "h1" [("type", .str "alarm"), ("object-id", .str "e2"),
      ("last-triggered", .str "2024-03-01T00:00:00")] "alarm" "e2" "2024-03-01T00:00:00"
    rfl rfl rfl).2.1 1709251200 (by decide)

/-- Left emissions survive sequencing. -/
theorem CollectResult.mem_seq_left {o : Observation} {r1 r2 : CollectResult}
    (h : o ∈ r1.emitted) : o ∈ (r1.seq r2).emitted := by
  unfold CollectResult.seq
  cases hp : r1.panicked <;> simp [h]

/-- C10: for a `"clk"` slot whose module info block is present (model,
serial-number, software-revision strings) but whose `sync-status`
object is absent, the receiver info sample is still emitted, with the
oscillator label set to the literal fallback `"unknown"`. -/
theorem clk_slot_missing_sync_status (host slotID model serial swrev : String)
    (slot moduleData moduleInfoData : Obj)
    (hty : getStr slot "slot-type" = some "clk")
    (hid : getStr slot "slot-id" = some slotID)
    (hmod : getObj slot "module" = some moduleData)
    (hinfo : getObj moduleData "info" = some moduleInfoData)
    (hm : getStr moduleInfoData "model" = some model)
    (hs : getStr moduleInfoData "serial-number" = some serial)
    (hr : getStr moduleInfoData "software-revision" = some swrev)
    (hsync : getObj moduleData "sync-status" = none) :
    mkObs receiverInfoName .gauge host
      [("slot_id", slotID), ("model", model), ("serial_number", serial),
       ("software_revision", swrev), ("oscillator_type", "unknown")] (.finite 1)
      ∈ (slotStep host (.obj slot)).emitted := by
  have hinfoPart : clkInfoPart host slotID moduleData =
      emitR [mkObs receiverInfoName .gauge host
        [("slot_id", slotID), ("model", model), ("serial_number", serial),
         ("software_revision", swrev), ("oscillator_type", "unknown")] (.finite 1)] := by
    unfold clkInfoPart
    simp only [hinfo, hm, hs, hr, hsync]
  have hstep : slotStep host (.obj slot) =
      ((clkInfoPart host slotID moduleData).seq (satellitesPart host slotID moduleData)).seq
        (grcPart host slotID moduleData) := by
    unfold slotStep
    simp only [Json.asObj, hty, hid, hmod]
    simp
  rw [hstep]
  exact CollectResult.mem_seq_left (CollectResult.mem_seq_left (by rw [hinfoPart]; simp [emitR]))

/-- Witness for C10 at a concrete slot. -/
theorem clk_slot_missing_sync_status_witness :
    mkObs receiverInfoName .gauge "h1"
      [("slot_id", "1"), ("model", "GPS180"), ("serial_number", "G1"),
       ("software_revision", "2.0"), ("oscillator_type", "unknown")] (.finite 1)
      ∈ (slotStep "h1" (.obj [("slot-type", .str "clk"), ("slot-id", .str "1"),
          ("module", .obj [("info", .obj [("model", .str "GPS180"),
             ("serial-number", .str "G1"), ("software-revision", .str "2.0")])])])).emitted :=
  clk_slot_missing_sync_status "h1" "1" "GPS180" "G1" "2.0" _ _ _
    rfl rfl rfl rfl rfl rfl rfl rfl

/-- Sequencing distributes membership. -/
theorem CollectResult.mem_seq {o : Observation} {r1 r2 : CollectResult}
    (h : o ∈ (r1.seq r2).emitted) : o ∈ r1.emitted ∨ o ∈ r2.emitted := by
  unfold CollectResult.seq at h
  cases hp : r1.panicked <;> rw [hp] at h
  · simp at h
    exact h
  · exact Or.inl h

/-- Membership through a loop of sequenced steps. -/
theorem CollectResult.mem_foldl_seq {α : Type} {o : Observation} (f : α → CollectResult)
    (l : List α) (init : CollectResult)
    (h : o ∈ (l.foldl (fun r x => r.seq (f x)) init).emitted) :
    o ∈ init.emitted ∨ ∃ x ∈ l, o ∈ (f x).emitted := by
  induction l generalizing init with
  | nil => exact Or.inl h
  | cons a as ih =>
    rcases ih (init.seq (f a)) h with h' | ⟨x, hx, hmem⟩
    · rcases CollectResult.mem_seq h' with h'' | h''
      · exact Or.inl h''
      · exact Or.inr ⟨a, by simp, h''⟩
    · exact Or.inr ⟨x, by simp [hx], hmem⟩

/-- Every uptime sample carries the resolved host label first. -/
theorem hostLabel_uptime {o : Observation} {host : String} {system : Obj}
    (h : o ∈ uptimeSection host system) : o.labels.head? = some ("host", host) := by
  unfold uptimeSection at h
  repeat' split at h
  all_goals simp only [List.mem_cons, List.not_mem_nil, or_false] at h
  subst h
  rfl

/-- Every CPU-load sample carries the resolved host label first. -/
theorem hostLabel_cpuload {o : Observation} {host : String} {system : Obj}
    (h : o ∈ cpuloadSection host system) : o.labels.head? = some ("host", host) := by
  unfold cpuloadSection at h
  repeat' split at h
  all_goals simp only [List.mem_cons, List.not_mem_nil, or_false] at h
  rcases h with rfl | rfl | rfl <;> rfl

/-- Every memory sample carries the resolved host label first. -/
theorem hostLabel_memory {o : Observation} {host : String} {system : Obj}
    (h : o ∈ memorySection host system) : o.labels.head? = some ("host", host) := by
  unfold memorySection at h
  repeat' split at h
  all_goals simp only [List.mem_cons, List.not_mem_nil, or_false] at h
  rcases h with rfl | rfl <;> rfl

/-- Every event sample carries the resolved host label first. -/
theorem hostLabel_eventStep {o : Observation} {host : String} {evt : Json}
    (h : o ∈ (eventStep host evt).emitted) : o.labels.head? = some ("host", host) := by
  unfold eventStep at h
  repeat' split at h
  all_goals simp only [emitR, panicR, List.mem_cons, List.not_mem_nil, or_false] at h
  subst h
  rfl

/-- Every sample of the events loop carries the resolved host label. -/
theorem hostLabel_eventsSection {o : Observation} {host : String} {data : Obj}
    (h : o ∈ (eventsSection host data).emitted) : o.labels.head? = some ("host", host) := by
  unfold eventsSection at h
  repeat' split at h
  · simp [emitR] at h
  · simp [emitR] at h
  · rcases CollectResult.mem_foldl_seq _ _ _ h with h' | ⟨evt, _, hmem⟩
    · simp [emitR] at h'
    · exact hostLabel_eventStep hmem

/-- Every storage sample carries the resolved host label first. -/
theorem hostLabel_storageStep {o : Observation} {host : String} {raw : Json}
    (h : o ∈ storageStep host raw) : o.labels.head? = some ("host", host) := by
  unfold storageStep at h
  repeat' split at h
  all_goals simp only [List.mem_append, List.mem_cons, List.not_mem_nil, or_false,
    false_or] at h
  all_goals rcases h with rfl | rfl <;> rfl

/-- Every sample of the storage loop carries the resolved host label. -/
theorem hostLabel_storageSection {o : Observation} {host : String} {system : Obj}
    (h : o ∈ storageSection host system) : o.labels.head? = some ("host", host) := by
  unfold storageSection at h
  split at h
  · simp at h
  · rcases List.mem_flatMap.mp h with ⟨raw, _, hmem⟩
    exact hostLabel_storageStep hmem

/-- Every CPU-slot sample carries the resolved host label first. -/
theorem hostLabel_cpuSlotPart {o : Observation} {host : String} {slot : Obj}
    (h : o ∈ (cpuSlotPart host slot).emitted) : o.labels.head? = some ("host", host) := by
  unfold cpuSlotPart at h
  repeat' split at h
  all_goals simp only [emitR, panicR, List.mem_cons, List.not_mem_nil, or_false] at h
  subst h
  rfl

/-- Every receiver-info sample carries the resolved host label first. -/
theorem hostLabel_clkInfoPart {o : Observation} {host slotID : String} {moduleData : Obj}
    (h : o ∈ (clkInfoPart host slotID moduleData).emitted) :
    o.labels.head? = some ("host", host) := by
  unfold clkInfoPart at h
  repeat' split at h
  all_goals simp only [emitR, panicR, List.mem_cons, List.not_mem_nil, or_false] at h
  all_goals (subst h; rfl)

/-- Every GNSS sample carries the resolved host label first. -/
theorem hostLabel_satellitesPart {o : Observation} {host slotID : String} {moduleData : Obj}
    (h : o ∈ (satellitesPart host slotID moduleData).emitted) :
    o.labels.head? = some ("host", host) := by
  unfold satellitesPart at h
  repeat' split at h
  all_goals simp only [emitR, panicR, List.mem_cons, List.not_mem_nil, or_false] at h
  rcases h with rfl | rfl | rfl | rfl | rfl <;> rfl

/-- Every antenna sample carries the resolved host label first. -/
theorem hostLabel_antennaPart {o : Observation} {host slotID : String} {grcData : Obj}
    (h : o ∈ (antennaPart host slotID grcData).emitted) :
    o.labels.head? = some ("host", host) := by
  unfold antennaPart at h
  repeat' split at h
  all_goals simp only [CollectResult.seq, emitR, panicR, List.mem_append, List.mem_cons,
    List.not_mem_nil, or_false, false_or] at h
  all_goals rcases h with rfl | rfl <;> rfl

/-- Every GRC receiver sample carries the resolved host label first. -/
theorem hostLabel_receiverPart {o : Observation} {host slotID : String} {grcData : Obj}
    (h : o ∈ (receiverPart host slotID grcData).emitted) :
    o.labels.head? = some ("host", host) := by
  unfold receiverPart at h
  repeat' split at h
  all_goals simp only [CollectResult.seq, emitR, panicR, List.mem_append, List.mem_cons,
    List.not_mem_nil, or_false, false_or] at h
  all_goals rcases h with rfl | rfl | rfl | rfl <;> rfl

/-- Every GRC sample carries the resolved host label first. -/
theorem hostLabel_grcPart {o : Observation} {host slotID : String} {moduleData : Obj}
    (h : o ∈ (grcPart host slotID moduleData).emitted) :
    o.labels.head? = some ("host", host) := by
  unfold grcPart at h
  split at h
  · simp [emitR] at h
  · rcases CollectResult.mem_seq h with h' | h'
    · exact hostLabel_antennaPart h'
    · exact hostLabel_receiverPart h'

/-- Every slot sample carries the resolved host label first. -/
theorem hostLabel_slotStep {o : Observation} {host : String} {slotRaw : Json}
    (h : o ∈ (slotStep host slotRaw).emitted) : o.labels.head? = some ("host", host) := by
  unfold slotStep at h
  repeat' split at h
  all_goals first
    | (simp [emitR, panicR] at h)
    | (exact hostLabel_cpuSlotPart h)
    | (rcases CollectResult.mem_seq h with h' | h'
       · rcases CollectResult.mem_seq h' with h'' | h''
         · exact hostLabel_clkInfoPart h''
         · exact hostLabel_satellitesPart h''
       · exact hostLabel_grcPart h')

/-- Every sample of the chassis loop carries the resolved host label. -/
theorem hostLabel_chassisSection {o : Observation} {host : String} {data : Obj}
    (h : o ∈ (chassisSection host data).emitted) : o.labels.head? = some ("host", host) := by
  unfold chassisSection at h
  repeat' split at h
  · simp [emitR] at h
  · simp [emitR] at h
  · rcases CollectResult.mem_foldl_seq _ _ _ h with h' | ⟨slotRaw, _, hmem⟩
    · simp [emitR] at h'
    · exact hostLabel_slotStep hmem

/-- Every sample of the extraction body carries the resolved host label. -/
theorem hostLabel_extractBody {o : Observation} {host : String} {data : Obj}
    (h : o ∈ (extractBody host data).emitted) : o.labels.head? = some ("host", host) := by
  unfold extractBody at h
  split at h
  · simp [panicR] at h
  · rcases CollectResult.mem_seq h with h' | h'
    · simp only [emitR, List.mem_append] at h'
      rcases h' with (h' | h') | h'
      · exact hostLabel_uptime h'
      · exact hostLabel_cpuload h'
      · exact hostLabel_memory h'
    · rcases CollectResult.mem_seq h' with h'' | h''
      · exact hostLabel_eventsSection h''
      · rcases CollectResult.mem_seq h'' with h3 | h3
        · exact hostLabel_storageSection (by simpa [emitR] using h3)
        · exact hostLabel_chassisSection h3

/-- C8: every Observation emitted by `Collect` other than the `up`
gauge carries a `host` label equal to the single hostname resolved from
the document's `system-information.hostname` for that scrape; only the
`up` gauge can fall back to `"unknown"`, and no sample uses a per-field
default hostname. -/
theorem collect_host_label_invariant (fetched : Except FetchError Obj) (target : String)
    (o : Observation) (ho : o ∈ (collect fetched target).emitted) (hup : o.name ≠ upName) :
    ∃ doc idn data, fetched = .ok doc ∧ resolveIdentity doc = some (idn, data) ∧
      o.labels.head? = some ("host", idn.host) := by
  cases fetched with
  | error e =>
    simp [collect, emitR] at ho
    subst ho
    exact absurd rfl hup
  | ok statusData =>
    simp only [collect] at ho
    cases hres : resolveIdentity statusData with
    | none =>
      rw [hres] at ho
      simp [emitR] at ho
    | some pr =>
      obtain ⟨idn, data⟩ := pr
      rw [hres] at ho
      refine ⟨statusData, idn, data, rfl, hres, ?_⟩
      rcases CollectResult.mem_seq ho with h | h
      · rcases CollectResult.mem_seq h with h | h
        · simp only [emitR, List.mem_cons, List.not_mem_nil, or_false] at h
          rcases h with rfl | rfl <;> rfl
        · exact hostLabel_extractBody h
      · simp only [emitR, List.mem_cons, List.not_mem_nil, or_false] at h
        subst h
        exact absurd rfl hup

/-- Witness for C8 at a concrete document and sample. -/
theorem collect_host_label_invariant_witness :
    ∃ doc idn data, (Except.ok sampleDoc : Except FetchError Obj) = .ok doc ∧
      resolveIdentity doc = some (idn, data) ∧
      (mkObs buildInfoName .gauge "h1"
        [("api_version", "V20"), ("firmware_version", "fw")] (.finite 1)).labels.head? =
        some ("host", idn.host) :=
  collect_host_label_invariant (.ok sampleDoc) "tgt"
    (mkObs buildInfoName .gauge "h1"
      [("api_version", "V20"), ("firmware_version", "fw")] (.finite 1))
    (by decide) (by decide)

/-- Witness for C6 at a concrete fetch error and target. -/
theorem collect_fetch_error_up_only_witness :
    collect (.error .transport) "http://device" =
      ⟨[⟨upName, .gauge, [("host", "unknown"), ("target", "http://device")], .finite 0⟩],
       none⟩ :=
  collect_fetch_error_up_only .transport "http://device"
